import Mathlib

/-!
Verification of the validation-and-merge engine specified for the
databricks-data-quality-reviewer-app repository, together with two pieces of
the shipped React page QuarantinePageSodexo.tsx.

The repository ships the React client and two design documents; the backend
engine itself (Constraint Registry, Validator, Batch Processor, Merge
Coordinator, Pipeline Trigger) is not present under src, so those components
are modelled from the spec text, while the data model, the page logic and the
detect_violations sketch are embedded from the source files.
-/

namespace DQ

/-- Closed enumeration of violation kinds, used throughout the client
(src/client/src/fastapi_client/models/ViolationType referenced from
ValidationResult.ts and QuarantineRecord.ts) and fixed by spec section 3:
PAYMENT_DATE, BALANCE, COST_CENTER. -/
inductive ViolationType where
  | PAYMENT_DATE
  | BALANCE
  | COST_CENTER
deriving DecidableEq, Repr

/-- Quarantined transaction record, embedded from
src/client/src/fastapi_client/models/QuarantineRecord.ts.  Identifying fields
id, date and status are mandatory; every other field is nullable, rendered as
Option.  Dates are ISO yyyy-mm-dd strings, compared lexicographically exactly
as the source compares them.  The source field _rescued_data is rendered here
as rescued_data. -/
structure QuarantineRecord where
  id : Nat
  date : String
  status : String
  next_payment_date : Option String := none
  balance : Option Int := none
  arrears_balance : Option Int := none
  cost_center_code : Option String := none
  acc_fv_change_before_taxes : Option Int := none
  accounting_treatment_id : Option Nat := none
  accrued_interest : Option Int := none
  base_rate : Option String := none
  behavioral_curve_id : Option Nat := none
  count : Option Nat := none
  country_code : Option String := none
  encumbrance_type : Option String := none
  end_date : Option String := none
  first_payment_date : Option String := none
  guarantee_scheme : Option String := none
  limit_amount : Option Int := none
  last_payment_date : Option String := none
  minimum_balance_eur : Option Int := none
  purpose : Option String := none
  type : Option String := none
  accounting_treatment : Option String := none
  rescued_data : Option String := none
  violation_types : List ViolationType := []
deriving DecidableEq, Repr

/-- Composite key of a record: the id + date + status concatenation
(design.md: Unique Identifier is the combination of id + date + status; the
client keys records by strings of the form id|date|status, for example
42|2024-01-01|QUARANTINED). -/
def compositeKey (r : QuarantineRecord) : String :=
  toString r.id ++ "|" ++ r.date ++ "|" ++ r.status

/-- Fixed cutoff date of the PAYMENT_DATE constraint: the literal 2020-12-31
from detect_violations in src/docs/design.md. -/
def cutoffDate : String := "2020-12-31"

/-- Lexicographic strict comparison of character lists by code point, the
order both Python and the source use on ISO yyyy-mm-dd date strings. -/
def charListLt : List Char → List Char → Bool
  | _, [] => false
  | [], _ :: _ => true
  | c :: cs, d :: ds =>
      if c.toNat < d.toNat then true
      else if d.toNat < c.toNat then false
      else charListLt cs ds

/-- Lexicographic strict order on strings. -/
def strLt (s t : String) : Bool :=
  charListLt s.data t.data

/-- Lexicographic weak order on strings: s is at most t iff t is not
strictly below s. -/
def strLe (s t : String) : Bool :=
  !(strLt t s)

/-- Modelled from the spec: the backend Constraint Registry (spec section 4.1)
is not present under src, so each predicate is taken from the spec text.
PAYMENT_DATE holds iff next_payment_date is present and strictly greater than
the cutoff date; BALANCE holds iff balance and arrears_balance are present and
strictly positive; COST_CENTER holds iff cost_center_code is present and
non-empty.  On records whose tested fields are all present these predicates
agree with detect_violations from src/docs/design.md, proved below in
detect_violations_agrees_validate. -/
def evaluate : ViolationType → QuarantineRecord → Bool
  | .PAYMENT_DATE, r =>
      match r.next_payment_date with
      | some d => strLt cutoffDate d
      | none => false
  | .BALANCE, r =>
      match r.balance, r.arrears_balance with
      | some b, some a => decide (0 < b) && decide (0 < a)
      | _, _ => false
  | .COST_CENTER, r =>
      match r.cost_center_code with
      | some c => decide (c ≠ "")
      | none => false

/-- Registry declaration order of the constraint kinds (spec section 4.2:
violations are appended in registry-declaration order; design.md
detect_violations checks them in the same order). -/
def registryOrder : List ViolationType :=
  [ViolationType.PAYMENT_DATE, ViolationType.BALANCE, ViolationType.COST_CENTER]

/-- Result of validating a record against the constraints, embedded from
src/client/src/fastapi_client/models/ValidationResult.ts. -/
structure ValidationResult where
  composite_key : String
  is_valid : Bool
  violations : List ViolationType
  errors : List String
deriving DecidableEq, Repr

/-- Modelled from the spec: the human-readable error strings of a
ValidationResult (spec section 3); the backend producing them is not present
under src. -/
def violationMessage : ViolationType → String
  | .PAYMENT_DATE => "next_payment_date must be after " ++ cutoffDate
  | .BALANCE => "balance and arrears_balance must be positive"
  | .COST_CENTER => "cost_center_code must be non-empty"

/-- Modelled from the spec: the backend Validator (spec section 4.2) is not
present under src.  It runs every registered constraint in registry order; a
failed predicate appends its kind to the violation set; is_valid is the
conjunction of all predicates; a missing field makes its predicate fail
rather than raise. -/
def validate (r : QuarantineRecord) : ValidationResult :=
  let viols := registryOrder.filter (fun k => !(evaluate k r))
  { composite_key := compositeKey r
  , is_valid := viols.isEmpty
  , violations := viols
  , errors := viols.map violationMessage }

/-- Python runtime error raised by the design.md sketch when a null field
meets a comparison operator. -/
inductive PyError where
  | typeError
deriving DecidableEq, Repr

/-- Violations list assembled by detect_violations in src/docs/design.md:
the kinds are appended in the fixed source order PAYMENT_DATE, BALANCE,
COST_CENTER, one per raised flag. -/
def violationList (paymentViol balanceViol costCenterViol : Bool) : List ViolationType :=
  (if paymentViol then [ViolationType.PAYMENT_DATE] else [])
    ++ (if balanceViol then [ViolationType.BALANCE] else [])
    ++ (if costCenterViol then [ViolationType.COST_CENTER] else [])

/-- Python truth value of not record cost_center_code in design.md
detect_violations: true exactly when the field is null or the empty string;
this check never raises. -/
def costCenterFalsy (record : QuarantineRecord) : Bool :=
  match record.cost_center_code with
  | none => true
  | some c => decide (c = "")

/-- Violation detection sketch embedded from src/docs/design.md,
detect_violations (lines 110 to 126), with Python evaluation order and
semantics: comparing a null next_payment_date, balance or arrears_balance
with <= raises a TypeError, in source order (payment date first, then
balance; the or operator short-circuits, so a null arrears_balance only
raises when balance is positive), while the cost center check tolerates a
null field. -/
def detect_violations (record : QuarantineRecord) : Except PyError (List ViolationType) :=
  match record.next_payment_date with
  | none => Except.error PyError.typeError
  | some d =>
      match record.balance with
      | none => Except.error PyError.typeError
      | some b =>
          if b ≤ 0 then
            Except.ok (violationList (strLe d cutoffDate) true (costCenterFalsy record))
          else
            match record.arrears_balance with
            | none => Except.error PyError.typeError
            | some a =>
                Except.ok (violationList (strLe d cutoffDate) (decide (a ≤ 0))
                  (costCenterFalsy record))

/-- Modelled from the spec: a RecordUpdate (spec section 3) — composite key
plus a sparse set of proposed changes to the four editable fields; a field
left none is not changed.  The generated client declares the matching
QuarantineRecordUpdate model, whose file is not under src. -/
structure RecordUpdate where
  composite_key : String
  next_payment_date : Option String := none
  balance : Option Int := none
  arrears_balance : Option Int := none
  cost_center_code : Option String := none
deriving DecidableEq, Repr

/-- Modelled from the spec: applying a sparse update to a base record (spec
section 4.3) — changed fields take the proposed value, unchanged fields
retain the base values, identifying and contextual fields are untouched. -/
def applyUpdate (base : QuarantineRecord) (u : RecordUpdate) : QuarantineRecord :=
  { base with
    next_payment_date :=
      match u.next_payment_date with
      | some v => some v
      | none => base.next_payment_date
  , balance :=
      match u.balance with
      | some v => some v
      | none => base.balance
  , arrears_balance :=
      match u.arrears_balance with
      | some v => some v
      | none => base.arrears_balance
  , cost_center_code :=
      match u.cost_center_code with
      | some v => some v
      | none => base.cost_center_code }

/-- Batch-level structural errors (spec sections 4.3 and 7): they abort the
whole call before any validation or write. -/
inductive BatchError where
  | DUPLICATE_KEY
deriving DecidableEq, Repr

/-- Per-record outcome of processing one update inside a batch. -/
inductive RecordResult where
  | not_found (composite_key : String)
  | validated (vr : ValidationResult)
deriving DecidableEq, Repr

/-- Modelled from the spec: a BatchResult (spec section 3) — the ordered
sequence of per-record results plus aggregate counts. -/
structure BatchResult where
  results : List RecordResult
  valid_count : Nat
  invalid_count : Nat
deriving DecidableEq, Repr

/-- Decision of one update of a batch against the base records, used by the
Batch Processor: missing base record is a per-record RECORD_NOT_FOUND
failure, otherwise the sparse changes are applied and the candidate is
validated. -/
def processOne (base_records : String → Option QuarantineRecord) (u : RecordUpdate) : RecordResult :=
  match base_records u.composite_key with
  | none => RecordResult.not_found u.composite_key
  | some base => RecordResult.validated (validate (applyUpdate base u))

/-- Boolean test for a validated-and-valid per-record result. -/
def RecordResult.isValid : RecordResult → Bool
  | .validated vr => vr.is_valid
  | .not_found _ => false

/-- Modelled from the spec: the Batch Processor (spec section 4.3) is not
present under src.  Duplicate composite keys within one batch are rejected as
a batch-level DUPLICATE_KEY error before any validation runs; otherwise each
update is processed in input order, side-effect free. -/
def process (base_records : String → Option QuarantineRecord)
    (updates : List RecordUpdate) : Except BatchError BatchResult :=
  if (updates.map (fun u => u.composite_key)).Nodup then
    let results := updates.map (processOne base_records)
    Except.ok
      { results := results
      , valid_count := results.countP (fun r => r.isValid)
      , invalid_count := results.countP (fun r => !r.isValid) }
  else Except.error BatchError.DUPLICATE_KEY

/-- Modelled from the spec: the two logical tables of the Table Store (spec
section 6), quarantine and clean, each mapping a composite key to at most one
record. -/
structure Stores where
  quarantine : String → Option QuarantineRecord
  clean : String → Option QuarantineRecord

/-- Audit action kinds, from spec section 3 and the design.md audit_trail
schema. -/
inductive ActionKind where
  | EDIT
  | MERGE
  | VALIDATION_FAILED
  | RE_QUARANTINE
deriving DecidableEq, Repr

/-- Modelled from the spec: an AuditEntry (spec section 3) — record identity,
acting user, action kind, prior and new field values and the violation kinds
at the time of the action.  Timestamp and session id are real-time data
outside the model. -/
structure AuditEntry where
  composite_key : String
  actor : String
  action : ActionKind
  old_values : Option QuarantineRecord
  new_values : Option QuarantineRecord
  violations : List ViolationType
deriving DecidableEq, Repr

/-- Kind of per-record outcome reported by the Merge Coordinator. -/
inductive OutcomeKind where
  | merged
  | re_quarantined
  | not_found
deriving DecidableEq, Repr

/-- Per-record outcome row of a MergeResult. -/
structure RecordOutcome where
  composite_key : String
  kind : OutcomeKind
deriving DecidableEq, Repr

/-- Intermediate state threaded through the Merge Coordinator: the two
stores, the per-record outcomes so far and the audit entries so far. -/
structure MergeState where
  stores : Stores
  outcomes : List RecordOutcome
  audit : List AuditEntry

/-- Modelled from the spec: one per-record transition of the Merge
Coordinator (spec section 4.4, steps 1, 3 and 4).  A key missing from
quarantine is a per-record NotFound failure that mutates nothing; a valid
candidate is written to the clean store and deleted from quarantine with an
EDIT and MERGE audit pair; an invalid candidate has its quarantine entry
violation metadata refreshed with a VALIDATION_FAILED and RE_QUARANTINE
audit pair, and the clean store is untouched. -/
def mergeStep (actor : String) (ms : MergeState) (u : RecordUpdate) : MergeState :=
  match ms.stores.quarantine u.composite_key with
  | none =>
      { ms with outcomes := ms.outcomes ++ [⟨u.composite_key, OutcomeKind.not_found⟩] }
  | some base =>
      let cand := applyUpdate base u
      let vr := validate cand
      if vr.is_valid then
        { stores :=
            { quarantine := fun k => if k = u.composite_key then none else ms.stores.quarantine k
            , clean := fun k => if k = u.composite_key then some cand else ms.stores.clean k }
        , outcomes := ms.outcomes ++ [⟨u.composite_key, OutcomeKind.merged⟩]
        , audit := ms.audit ++
            [⟨u.composite_key, actor, ActionKind.EDIT, some base, some cand, vr.violations⟩,
             ⟨u.composite_key, actor, ActionKind.MERGE, some base, some cand, vr.violations⟩] }
      else
        { stores :=
            { quarantine := fun k =>
                if k = u.composite_key then some { base with violation_types := vr.violations }
                else ms.stores.quarantine k
            , clean := ms.stores.clean }
        , outcomes := ms.outcomes ++ [⟨u.composite_key, OutcomeKind.re_quarantined⟩]
        , audit := ms.audit ++
            [⟨u.composite_key, actor, ActionKind.VALIDATION_FAILED, some base, some cand, vr.violations⟩,
             ⟨u.composite_key, actor, ActionKind.RE_QUARANTINE, some base, some cand, vr.violations⟩] }

/-- Modelled from the spec: a MergeResult (spec section 3) — counts of
records merged, re-quarantined and not found, the per-record outcomes and
whether the downstream trigger fired. -/
structure MergeResult where
  merged : Nat
  re_quarantined : Nat
  not_found : Nat
  outcomes : List RecordOutcome
  trigger_fired : Bool

/-- Success path of the Merge Coordinator: process the updates in input
order with per-record isolation and aggregate the MergeResult; the Pipeline
Trigger is invoked once for the whole batch exactly when at least one record
merged. -/
def mergeRun (st : Stores) (updates : List RecordUpdate) (actor : String) :
    Stores × MergeResult × List AuditEntry :=
  let final := updates.foldl (mergeStep actor) ⟨st, [], []⟩
  let mergedCount := final.outcomes.countP (fun o => decide (o.kind = OutcomeKind.merged))
  (final.stores,
   { merged := mergedCount
   , re_quarantined := final.outcomes.countP (fun o => decide (o.kind = OutcomeKind.re_quarantined))
   , not_found := final.outcomes.countP (fun o => decide (o.kind = OutcomeKind.not_found))
   , outcomes := final.outcomes
   , trigger_fired := decide (0 < mergedCount) },
   final.audit)

/-- Modelled from the spec: the Merge Coordinator (spec section 4.4) is not
present under src.  Batch-level duplicate keys abort the whole call before
any store mutation with no MergeResult; otherwise the updates are processed
through mergeRun. -/
def merge (st : Stores) (updates : List RecordUpdate) (actor : String) :
    Except BatchError (Stores × MergeResult × List AuditEntry) :=
  if (updates.map (fun u => u.composite_key)).Nodup then
    Except.ok (mergeRun st updates actor)
  else Except.error BatchError.DUPLICATE_KEY

/-- Membership of a key in the quarantine store, as a Bool. -/
def inQuarantine (st : Stores) (k : String) : Bool :=
  (st.quarantine k).isSome

/-- Membership of a key in the clean store, as a Bool. -/
def inClean (st : Stores) (k : String) : Bool :=
  (st.clean k).isSome

/-- A key belongs to exactly one of the two stores (spec section 3,
Ownership: a record belongs to exactly one store at any time). -/
def inExactlyOneStore (st : Stores) (k : String) : Bool :=
  xor (inQuarantine st k) (inClean st k)

/-- Modelled from the spec: the Pipeline Trigger (spec section 4.6) is not
present under src.  Its dedup state is the set of batch ids already fired;
trigger returns true and invokes the downstream job runner exactly when the
batch id has not fired yet, and otherwise skips and returns false. -/
def trigger (fired : List String) (batch_id : String) : Bool × List String :=
  if fired.contains batch_id then (false, fired)
  else (true, batch_id :: fired)

/-- Results of n successive trigger calls with the same batch id starting
from a given dedup state: the list of returned booleans (true = downstream
job runner invoked) and the final state. -/
def triggerCalls (fired : List String) (batch_id : String) : Nat → List Bool × List String
  | 0 => ([], fired)
  | n + 1 =>
      let r := trigger fired batch_id
      let rest := triggerCalls r.2 batch_id n
      (r.1 :: rest.1, rest.2)

/-- Per-kind counts object of the violation-counts endpoint response, as the
page reads it (src/client/src/pages/QuarantinePageSodexo.tsx lines 94 to 98):
each field may be absent, and the page falls back to 0 with a JavaScript
or-expression. -/
structure ViolationCountsData where
  PAYMENT_DATE : Option Nat := none
  BALANCE : Option Nat := none
  COST_CENTER : Option Nat := none
deriving DecidableEq, Repr

/-- Response of the violation-counts query as consumed by
QuarantinePageSodexo.tsx: an object whose violation_counts member may be
absent. -/
structure ViolationCountsResponse where
  violation_counts : Option ViolationCountsData := none
deriving DecidableEq, Repr

/-- Embedded from src/client/src/pages/QuarantinePageSodexo.tsx lines 94 to
98: violationCounts is the violation_counts member of the query data when
present, and the all-zero literal otherwise (also when the query has not
returned data yet). -/
def violationCounts (totalViolationCounts : Option ViolationCountsResponse) : ViolationCountsData :=
  match totalViolationCounts with
  | some resp =>
      match resp.violation_counts with
      | some vc => vc
      | none => { PAYMENT_DATE := some 0, BALANCE := some 0, COST_CENTER := some 0 }
  | none => { PAYMENT_DATE := some 0, BALANCE := some 0, COST_CENTER := some 0 }

/-- Embedded from src/client/src/pages/QuarantinePageSodexo.tsx lines 100 to
108: when the violation-counts query has returned data, the Total Quarantined
statistic is Math.max of the three per-kind counts (each defaulted to 0) and
the literal 1337; otherwise it is total_count.  renderStatCard (lines 232 to
246 and 560 to 567) displays this value unchanged. -/
def totalQuarantinedCount (totalViolationCounts : Option ViolationCountsResponse)
    (totalCount : Nat) : Nat :=
  match totalViolationCounts with
  | some _ =>
      max (max (max ((violationCounts totalViolationCounts).PAYMENT_DATE.getD 0)
        ((violationCounts totalViolationCounts).BALANCE.getD 0))
        ((violationCounts totalViolationCounts).COST_CENTER.getD 0)) 1337
  | none => totalCount

/-- Pending edits of one record in the edit buffer: a Partial of the
QuarantineRecord fields the page ever writes through handleFieldEdit
(next_payment_date, balance, arrears_balance, cost_center_code). -/
structure RecordEdits where
  next_payment_date : Option String := none
  balance : Option Int := none
  arrears_balance : Option Int := none
  cost_center_code : Option String := none
deriving DecidableEq, Repr

/-- Client-side state of QuarantinePageSodexo.tsx relevant to editing: the
set of record keys currently in edit mode and the edit buffer mapping a
record key to its pending edits. -/
structure EditUIState where
  editingRecords : List String
  editState : String → Option RecordEdits

/-- Effects a click handler of the page can issue: console logging or an API
request to the backend. -/
inductive UIEffect where
  | consoleLog (message : String)
  | apiRequest (endpoint : String)
deriving DecidableEq, Repr

/-- Embedded from src/client/src/pages/QuarantinePageSodexo.tsx lines 131 to
143, toggleRecordEditing: when the key is in edit mode it is removed from
editingRecords and its pending edits are deleted from the edit buffer;
otherwise the key is added to editingRecords and the buffer is untouched. -/
def toggleRecordEditing (s : EditUIState) (key : String) : EditUIState :=
  if s.editingRecords.contains key then
    { editingRecords := s.editingRecords.filter (fun k => k ≠ key)
    , editState := fun k => if k = key then none else s.editState k }
  else
    { s with editingRecords := key :: s.editingRecords }

/-- Embedded from src/client/src/pages/QuarantinePageSodexo.tsx lines 442 to
455, the onClick handler of the Save Changes button: its whole body is one
console.log call followed by toggleRecordEditing; it invokes no service
method, so the only effect it issues is the console log. -/
def saveChangesOnClick (s : EditUIState) (key : String) : EditUIState × List UIEffect :=
  (toggleRecordEditing s key,
   [UIEffect.consoleLog ("Save changes for: " ++ key)])

/-- Bool test telling whether an effect is an API request. -/
def UIEffect.isApiRequest : UIEffect → Bool
  | .apiRequest _ => true
  | .consoleLog _ => false

/-! ### Sample inputs used by the witnesses -/

/-- Sample record whose editable fields are all present and valid. -/
def sampleClean : QuarantineRecord :=
  { id := 1, date := "2024-01-01", status := "QUARANTINED"
  , next_payment_date := some ("2024-06-01"), balance := some 100
  , arrears_balance := some 5, cost_center_code := some ("CC1") }

/-- Sample record violating only the PAYMENT_DATE constraint (spec section 8
scenario with cutoff 2020-12-31). -/
def samplePaymentBad : QuarantineRecord :=
  { id := 42, date := "2024-01-01", status := "QUARANTINED"
  , next_payment_date := some ("2019-05-01"), balance := some 250
  , arrears_balance := some 10, cost_center_code := some ("CC7") }

/-- Sample record with every editable field null. -/
def sampleAllNull : QuarantineRecord :=
  { id := 9, date := "2024-03-01", status := "QUARANTINED" }

/-! ### C2 — validity iff empty violation set -/

/-- C2: for every record, the ValidationResult produced by validate has
is_valid = true iff its violation set is empty, so no result pairs
is_valid = true with a non-empty violations list. -/
theorem C2_is_valid_iff_violations_empty (r : QuarantineRecord) :
    (validate r).is_valid = true ↔ (validate r).violations = [] := by
  simp [validate, List.isEmpty_iff]

/-- Witness for C2 at a concrete record. -/
theorem C2_witness :
    (validate sampleClean).is_valid = true ↔ (validate sampleClean).violations = [] :=
  C2_is_valid_iff_violations_empty sampleClean

/-! ### C9 — the hard-coded 1337 floor of the Total Quarantined statistic -/

/-- C9: whenever the violation-counts query of QuarantinePageSodexo.tsx has
returned data, the displayed Total Quarantined value equals the maximum of
the three per-kind counts and the constant 1337, and consequently whenever
all per-kind counts are below 1337 the displayed total is 1337 regardless of
totalCount. -/
theorem C9_total_quarantined_is_1337_floor (resp : ViolationCountsResponse)
    (totalCount : Nat) :
    totalQuarantinedCount (some resp) totalCount
        = max (max (max ((violationCounts (some resp)).PAYMENT_DATE.getD 0)
            ((violationCounts (some resp)).BALANCE.getD 0))
            ((violationCounts (some resp)).COST_CENTER.getD 0)) 1337
      ∧ ((violationCounts (some resp)).PAYMENT_DATE.getD 0 < 1337 →
          (violationCounts (some resp)).BALANCE.getD 0 < 1337 →
          (violationCounts (some resp)).COST_CENTER.getD 0 < 1337 →
          totalQuarantinedCount (some resp) totalCount = 1337) := by
  refine ⟨rfl, fun h1 h2 h3 => ?_⟩
  simp only [totalQuarantinedCount]
  omega

/-- Sample violation-counts response reporting 10, 20 and 30 quarantined
records per kind. -/
def sampleCountsResponse : ViolationCountsResponse :=
  { violation_counts :=
      some ({ PAYMENT_DATE := some 10, BALANCE := some 20, COST_CENTER := some 30 } :
        ViolationCountsData) }

/-- Witness for C9: a backend response reporting 10, 20 and 30 quarantined
records per kind is displayed as 1337. -/
theorem C9_witness :
    totalQuarantinedCount (some sampleCountsResponse) 60 = 1337 :=
  (C9_total_quarantined_is_1337_floor sampleCountsResponse 60).2
    (by decide) (by decide) (by decide)

/-! ### C10 — the Save Changes button performs no save -/

/-- C10: for every edit-buffer state and every record key in edit mode,
clicking Save Changes issues no API request of any kind — its only effect is
a console log — and it toggles edit mode off, deleting the pending edits of
that record from the edit buffer. -/
theorem C10_save_changes_discards_edits (s : EditUIState) (key : String)
    (h : s.editingRecords.contains key = true) :
    (saveChangesOnClick s key).2 = [UIEffect.consoleLog ("Save changes for: " ++ key)]
      ∧ ((saveChangesOnClick s key).2.all (fun e => !e.isApiRequest)) = true
      ∧ (saveChangesOnClick s key).1.editState key = none
      ∧ (saveChangesOnClick s key).1.editingRecords.contains key = false := by
  have hmem : key ∈ s.editingRecords := by simpa using h
  refine ⟨rfl, rfl, ?_, ?_⟩
  · simp [saveChangesOnClick, toggleRecordEditing, hmem]
  · simp [saveChangesOnClick, toggleRecordEditing, hmem, List.mem_filter]

/-- Witness for C10 at a concrete state: one record in edit mode with a
pending balance edit; after the click the buffer entry is gone and no API
request was issued. -/
theorem C10_witness :
    (saveChangesOnClick
        { editingRecords := ["7|2024-02-01|QUARANTINED"]
        , editState := fun k =>
            if k = "7|2024-02-01|QUARANTINED" then some ({ balance := some 125 } : RecordEdits) else none }
        ("7|2024-02-01|QUARANTINED")).2
      = [UIEffect.consoleLog ("Save changes for: " ++ "7|2024-02-01|QUARANTINED")]
    ∧ ((saveChangesOnClick
        { editingRecords := ["7|2024-02-01|QUARANTINED"]
        , editState := fun k =>
            if k = "7|2024-02-01|QUARANTINED" then some ({ balance := some 125 } : RecordEdits) else none }
        ("7|2024-02-01|QUARANTINED")).2.all (fun e => !e.isApiRequest)) = true
    ∧ (saveChangesOnClick
        { editingRecords := ["7|2024-02-01|QUARANTINED"]
        , editState := fun k =>
            if k = "7|2024-02-01|QUARANTINED" then some ({ balance := some 125 } : RecordEdits) else none }
        ("7|2024-02-01|QUARANTINED")).1.editState ("7|2024-02-01|QUARANTINED") = none
    ∧ (saveChangesOnClick
        { editingRecords := ["7|2024-02-01|QUARANTINED"]
        , editState := fun k =>
            if k = "7|2024-02-01|QUARANTINED" then some ({ balance := some 125 } : RecordEdits) else none }
        ("7|2024-02-01|QUARANTINED")).1.editingRecords.contains ("7|2024-02-01|QUARANTINED")
      = false :=
  C10_save_changes_discards_edits
    { editingRecords := ["7|2024-02-01|QUARANTINED"]
    , editState := fun k =>
        if k = "7|2024-02-01|QUARANTINED" then some ({ balance := some 125 } : RecordEdits) else none }
    ("7|2024-02-01|QUARANTINED") (by decide)

/-! ### C8 — at-most-once pipeline triggering per batch id -/

/-- Once a batch id is in the dedup state, every further trigger call for it
returns false and leaves the state unchanged. -/
theorem triggerCalls_already_fired (fired : List String) (batch_id : String)
    (h : fired.contains batch_id = true) :
    ∀ n, triggerCalls fired batch_id n = (List.replicate n false, fired) := by
  intro n
  have hmem : batch_id ∈ fired := by simpa using h
  induction n with
  | zero => simp [triggerCalls]
  | succ n ih => simp [triggerCalls, trigger, hmem, ih, List.replicate_succ]

/-- C8: for every dedup state not yet containing the batch id and every
number of calls, the first trigger call for that batch id returns true and
every subsequent call returns false, so the downstream job runner is invoked
exactly once for the batch id (a true result is exactly an invocation). -/
theorem C8_trigger_at_most_once (fired : List String) (batch_id : String) (n : Nat)
    (h : fired.contains batch_id = false) :
    (triggerCalls fired batch_id (n + 1)).1 = true :: List.replicate n false
      ∧ (triggerCalls fired batch_id (n + 1)).1.count true = 1 := by
  have hnmem : batch_id ∉ fired := by simpa using h
  have hstep : trigger fired batch_id = (true, batch_id :: fired) := by
    simp [trigger, hnmem]
  have hcons : (batch_id :: fired).contains batch_id = true := by
    simp
  have hrest := triggerCalls_already_fired (batch_id :: fired) batch_id hcons n
  constructor
  · simp [triggerCalls, hstep, hrest]
  · simp [triggerCalls, hstep, hrest, List.count_cons, List.count_replicate]

/-- Witness for C8: from an empty dedup state, three calls for the same batch
id return true, false, false. -/
theorem C8_witness :
    (triggerCalls [] ("batch-2024-06-01") (2 + 1)).1 = true :: List.replicate 2 false
      ∧ (triggerCalls [] ("batch-2024-06-01") (2 + 1)).1.count true = 1 :=
  C8_trigger_at_most_once [] ("batch-2024-06-01") 2 (by decide)

/-! ### Shared facts about validate -/

/-- Validity of a ValidationResult is by definition the emptiness of its
violation list. -/
theorem validate_is_valid_iff (r : QuarantineRecord) :
    (validate r).is_valid = true ↔ (validate r).violations = [] := by
  simp [validate, List.isEmpty_iff]

/-- Unfolding of the violation list computed by validate. -/
theorem validate_violations (r : QuarantineRecord) :
    (validate r).violations = registryOrder.filter (fun k => !(evaluate k r)) := rfl

/-- Filtering the three-element registry is assembling the per-kind
singleton lists in registry order. -/
theorem filter_registryOrder (f : ViolationType → Bool) :
    registryOrder.filter f
      = violationList (f ViolationType.PAYMENT_DATE) (f ViolationType.BALANCE)
          (f ViolationType.COST_CENTER) := by
  by_cases h1 : f ViolationType.PAYMENT_DATE = true <;>
    by_cases h2 : f ViolationType.BALANCE = true <;>
      by_cases h3 : f ViolationType.COST_CENTER = true <;>
        simp [registryOrder, violationList, List.filter, h1, h2, h3]

/-- On a record whose four tested fields are all present, the design.md
sketch detect_violations returns exactly the violation set that the
spec-modelled validate computes: the two definitions agree everywhere the
sketch does not raise. -/
theorem detect_violations_agrees_validate (r : QuarantineRecord)
    (d : String) (b a : Int) (c : String)
    (hd : r.next_payment_date = some d) (hb : r.balance = some b)
    (ha : r.arrears_balance = some a) (hc : r.cost_center_code = some c) :
    detect_violations r = Except.ok ((validate r).violations) := by
  have hpd : (!(evaluate ViolationType.PAYMENT_DATE r)) = strLe d cutoffDate := by
    simp only [evaluate, hd]
    rfl
  have hbv : (!(evaluate ViolationType.BALANCE r))
      = (if b ≤ 0 then true else decide (a ≤ 0)) := by
    simp only [evaluate, hb, ha]
    by_cases hb0 : b ≤ 0
    · simp [hb0, not_lt.mpr hb0]
    · have h0b : (0 : Int) < b := not_le.mp hb0
      by_cases ha0 : a ≤ 0
      · simp [hb0, h0b, ha0, not_lt.mpr ha0]
      · simp [hb0, h0b, ha0, not_le.mp ha0]
  have hcc : (!(evaluate ViolationType.COST_CENTER r)) = costCenterFalsy r := by
    simp only [evaluate, costCenterFalsy, hc]
    by_cases hce : c = ""
    · simp [hce]
    · simp [hce]
  have hval : (validate r).violations
      = violationList (strLe d cutoffDate) (if b ≤ 0 then true else decide (a ≤ 0))
          (costCenterFalsy r) := by
    rw [validate_violations, filter_registryOrder, hpd, hbv, hcc]
  rw [hval]
  simp only [detect_violations, hd, hb, ha]
  by_cases hb0 : b ≤ 0 <;> simp [hb0]

/-- The design.md sketch raises a TypeError on the all-null record: the
first comparison meets a null next_payment_date. -/
theorem detect_violations_raises_on_null :
    detect_violations sampleAllNull = Except.error PyError.typeError := rfl

/-! ### C3 — the PAYMENT_DATE constraint and its repair scenario -/

/-- C3: the PAYMENT_DATE constraint is satisfied iff next_payment_date is
present and strictly greater than the fixed cutoff date, and for a base
record violating only PAYMENT_DATE, an update setting next_payment_date to
2024-06-01 validates with is_valid = true and an empty violation set. -/
theorem C3_payment_date_constraint (r : QuarantineRecord) (u : RecordUpdate)
    (hb : evaluate ViolationType.BALANCE r = true)
    (hc : evaluate ViolationType.COST_CENTER r = true)
    (hu : u.next_payment_date = some ("2024-06-01"))
    (hub : u.balance = none) (hua : u.arrears_balance = none)
    (huc : u.cost_center_code = none) :
    (evaluate ViolationType.PAYMENT_DATE r = true
        ↔ ∃ d, r.next_payment_date = some d ∧ strLt cutoffDate d = true)
      ∧ (validate (applyUpdate r u)).is_valid = true
      ∧ (validate (applyUpdate r u)).violations = [] := by
  have hp : (applyUpdate r u).next_payment_date = some ("2024-06-01") := by
    simp [applyUpdate, hu]
  have hbal : (applyUpdate r u).balance = r.balance := by simp [applyUpdate, hub]
  have harr : (applyUpdate r u).arrears_balance = r.arrears_balance := by
    simp [applyUpdate, hua]
  have hcco : (applyUpdate r u).cost_center_code = r.cost_center_code := by
    simp [applyUpdate, huc]
  have e1 : evaluate ViolationType.PAYMENT_DATE (applyUpdate r u) = true := by
    simp only [evaluate, hp]
    rfl
  have e2 : evaluate ViolationType.BALANCE (applyUpdate r u) = true := by
    rw [show evaluate ViolationType.BALANCE (applyUpdate r u)
        = evaluate ViolationType.BALANCE r by simp only [evaluate, hbal, harr]]
    exact hb
  have e3 : evaluate ViolationType.COST_CENTER (applyUpdate r u) = true := by
    rw [show evaluate ViolationType.COST_CENTER (applyUpdate r u)
        = evaluate ViolationType.COST_CENTER r by simp only [evaluate, hcco]]
    exact hc
  have hviol : (validate (applyUpdate r u)).violations = [] := by
    rw [validate_violations, filter_registryOrder]
    simp [violationList, e1, e2, e3]
  refine ⟨?_, (validate_is_valid_iff _).mpr hviol, hviol⟩
  simp only [evaluate]
  cases hnp : r.next_payment_date with
  | none => simp
  | some d => simp

/-- Witness for C3 at the concrete scenario record. -/
theorem C3_witness :
    (evaluate ViolationType.PAYMENT_DATE samplePaymentBad = true
        ↔ ∃ d, samplePaymentBad.next_payment_date = some d ∧ strLt cutoffDate d = true)
      ∧ (validate (applyUpdate samplePaymentBad
          { composite_key := "42|2024-01-01|QUARANTINED"
          , next_payment_date := some ("2024-06-01") })).is_valid = true
      ∧ (validate (applyUpdate samplePaymentBad
          { composite_key := "42|2024-01-01|QUARANTINED"
          , next_payment_date := some ("2024-06-01") })).violations = [] :=
  C3_payment_date_constraint samplePaymentBad
    { composite_key := "42|2024-01-01|QUARANTINED"
    , next_payment_date := some ("2024-06-01") }
    (by decide) (by decide) rfl rfl rfl rfl

/-! ### C4 — the BALANCE constraint and its negative-balance scenario -/

/-- C4: the BALANCE constraint is satisfied iff both balance and
arrears_balance are present and strictly positive, and every update setting
balance to -5 validates with is_valid = false and BALANCE among the
violations. -/
theorem C4_balance_constraint (r : QuarantineRecord) (u : RecordUpdate)
    (hu : u.balance = some (-5)) :
    (evaluate ViolationType.BALANCE r = true
        ↔ ∃ b a, r.balance = some b ∧ r.arrears_balance = some a ∧ 0 < b ∧ 0 < a)
      ∧ (validate (applyUpdate r u)).is_valid = false
      ∧ ViolationType.BALANCE ∈ (validate (applyUpdate r u)).violations := by
  have hbal : (applyUpdate r u).balance = some (-5) := by simp [applyUpdate, hu]
  have e2 : evaluate ViolationType.BALANCE (applyUpdate r u) = false := by
    simp only [evaluate, hbal]
    cases (applyUpdate r u).arrears_balance <;> simp
  have hmem : ViolationType.BALANCE ∈ (validate (applyUpdate r u)).violations := by
    rw [validate_violations, filter_registryOrder]
    simp [violationList, e2]
  refine ⟨?_, ?_, hmem⟩
  · simp only [evaluate]
    cases hb : r.balance with
    | none => simp
    | some b =>
        cases ha : r.arrears_balance with
        | none => simp
        | some a => simp
  · cases hval : (validate (applyUpdate r u)).is_valid with
    | false => rfl
    | true =>
        have := (validate_is_valid_iff (applyUpdate r u)).mp hval
        rw [this] at hmem
        simp at hmem

/-- Witness for C4: the scenario update setting balance to -5 on a clean
base record. -/
theorem C4_witness :
    (evaluate ViolationType.BALANCE sampleClean = true
        ↔ ∃ b a, sampleClean.balance = some b ∧ sampleClean.arrears_balance = some a
            ∧ 0 < b ∧ 0 < a)
      ∧ (validate (applyUpdate sampleClean
          { composite_key := "7|2024-02-01|QUARANTINED"
          , balance := some (-5) })).is_valid = false
      ∧ ViolationType.BALANCE ∈ (validate (applyUpdate sampleClean
          { composite_key := "7|2024-02-01|QUARANTINED"
          , balance := some (-5) })).violations :=
  C4_balance_constraint sampleClean
    { composite_key := "7|2024-02-01|QUARANTINED", balance := some (-5) } rfl

/-! ### C5 — missing editable fields are violations, not errors -/

/-- C5: validate is total on every record — including records whose editable
fields are missing — and records the absence of a tested field as a
violation of the corresponding kind instead of raising. -/
theorem C5_missing_fields_are_violations (r : QuarantineRecord) :
    (r.next_payment_date = none →
        ViolationType.PAYMENT_DATE ∈ (validate r).violations)
      ∧ (r.balance = none → ViolationType.BALANCE ∈ (validate r).violations)
      ∧ (r.arrears_balance = none → ViolationType.BALANCE ∈ (validate r).violations)
      ∧ (r.cost_center_code = none →
          ViolationType.COST_CENTER ∈ (validate r).violations) := by
  refine ⟨fun h => ?_, fun h => ?_, fun h => ?_, fun h => ?_⟩
  · have e : evaluate ViolationType.PAYMENT_DATE r = false := by simp [evaluate, h]
    rw [validate_violations, filter_registryOrder]
    simp [violationList, e]
  · have e : evaluate ViolationType.BALANCE r = false := by
      cases ha : r.arrears_balance <;> simp [evaluate, h, ha]
    rw [validate_violations, filter_registryOrder]
    simp [violationList, e]
  · have e : evaluate ViolationType.BALANCE r = false := by
      cases hb : r.balance <;> simp [evaluate, h, hb]
    rw [validate_violations, filter_registryOrder]
    simp [violationList, e]
  · have e : evaluate ViolationType.COST_CENTER r = false := by simp [evaluate, h]
    rw [validate_violations, filter_registryOrder]
    simp [violationList, e]

/-- Witness for C5 at the all-null record: every tested kind is reported as
a violation and validate returns a result rather than raising. -/
theorem C5_witness :
    ViolationType.PAYMENT_DATE ∈ (validate sampleAllNull).violations
      ∧ ViolationType.BALANCE ∈ (validate sampleAllNull).violations
      ∧ ViolationType.COST_CENTER ∈ (validate sampleAllNull).violations :=
  ⟨(C5_missing_fields_are_violations sampleAllNull).1 rfl,
   (C5_missing_fields_are_violations sampleAllNull).2.1 rfl,
   (C5_missing_fields_are_violations sampleAllNull).2.2.2 rfl⟩

/-! ### Per-step facts about the Merge Coordinator -/

/-- The outcomes list grows by exactly one row per processed update. -/
theorem mergeStep_outcomes_length (actor : String) (ms : MergeState) (u : RecordUpdate) :
    (mergeStep actor ms u).outcomes.length = ms.outcomes.length + 1 := by
  unfold mergeStep
  cases hq : ms.stores.quarantine u.composite_key with
  | none => simp
  | some base =>
      by_cases hv : (validate (applyUpdate base u)).is_valid = true <;> simp [hv]

/-- Rows already in the outcomes list survive every later step. -/
theorem mergeStep_outcomes_mono (actor : String) (ms : MergeState) (u : RecordUpdate)
    (o : RecordOutcome) (h : o ∈ ms.outcomes) :
    o ∈ (mergeStep actor ms u).outcomes := by
  unfold mergeStep
  cases hq : ms.stores.quarantine u.composite_key with
  | none => simp [h]
  | some base =>
      by_cases hv : (validate (applyUpdate base u)).is_valid = true <;> simp [hv, h]

/-- A key absent from quarantine stays absent through every step: a step
only writes quarantine at its own update key, and there only when the key
was found. -/
theorem mergeStep_quarantine_none (actor : String) (ms : MergeState) (u : RecordUpdate)
    (k : String) (h : ms.stores.quarantine k = none) :
    (mergeStep actor ms u).stores.quarantine k = none := by
  unfold mergeStep
  cases hq : ms.stores.quarantine u.composite_key with
  | none => exact h
  | some base =>
      by_cases hk : k = u.composite_key
      · subst hk
        rw [h] at hq
        exact absurd hq (by simp)
      · by_cases hv : (validate (applyUpdate base u)).is_valid = true <;> simp [hv, hk, h]

/-- A step whose update key is absent from quarantine only appends a
not_found outcome row and leaves stores and audit untouched. -/
theorem mergeStep_not_found (actor : String) (ms : MergeState) (u : RecordUpdate)
    (h : ms.stores.quarantine u.composite_key = none) :
    mergeStep actor ms u
      = { ms with outcomes :=
            ms.outcomes ++ [⟨u.composite_key, OutcomeKind.not_found⟩] } := by
  unfold mergeStep
  rw [h]

/-- One merge step preserves the exactly-one-store property of any key. -/
theorem mergeStep_exactlyOne (actor : String) (ms : MergeState) (u : RecordUpdate)
    (k : String) (h : inExactlyOneStore ms.stores k = true) :
    inExactlyOneStore (mergeStep actor ms u).stores k = true := by
  unfold mergeStep
  cases hq : ms.stores.quarantine u.composite_key with
  | none => exact h
  | some base =>
      by_cases hk : k = u.composite_key
      · subst hk
        simp only [inExactlyOneStore, inQuarantine, inClean, hq] at h
        by_cases hv : (validate (applyUpdate base u)).is_valid = true
        · simp [hv, inExactlyOneStore, inQuarantine, inClean]
        · simp only [hv, if_false, inExactlyOneStore, inQuarantine, inClean]
          simpa using h
      · by_cases hv : (validate (applyUpdate base u)).is_valid = true
        · simpa [hv, inExactlyOneStore, inQuarantine, inClean, hk] using h
        · simpa [hv, inExactlyOneStore, inQuarantine, inClean, hk] using h

/-! ### Folded facts about the Merge Coordinator -/

/-- The success path reports exactly one outcome row per submitted update. -/
theorem foldl_outcomes_length (actor : String) (updates : List RecordUpdate)
    (ms : MergeState) :
    (updates.foldl (mergeStep actor) ms).outcomes.length
      = ms.outcomes.length + updates.length := by
  induction updates generalizing ms with
  | nil => simp
  | cons u rest ih =>
      simp only [List.foldl_cons, List.length_cons]
      rw [ih, mergeStep_outcomes_length]
      omega

/-- Outcome rows are never dropped by later steps of the fold. -/
theorem foldl_outcomes_mono (actor : String) (updates : List RecordUpdate)
    (ms : MergeState) (o : RecordOutcome) (h : o ∈ ms.outcomes) :
    o ∈ (updates.foldl (mergeStep actor) ms).outcomes := by
  induction updates generalizing ms with
  | nil => simpa using h
  | cons u rest ih => exact ih _ (mergeStep_outcomes_mono actor ms u o h)

/-- A key absent from quarantine stays absent through the whole fold. -/
theorem foldl_quarantine_none (actor : String) (updates : List RecordUpdate)
    (ms : MergeState) (k : String) (h : ms.stores.quarantine k = none) :
    (updates.foldl (mergeStep actor) ms).stores.quarantine k = none := by
  induction updates generalizing ms with
  | nil => simpa using h
  | cons u rest ih => exact ih _ (mergeStep_quarantine_none actor ms u k h)

/-- The whole fold preserves the exactly-one-store property of any key. -/
theorem foldl_exactlyOne (actor : String) (updates : List RecordUpdate)
    (ms : MergeState) (k : String) (h : inExactlyOneStore ms.stores k = true) :
    inExactlyOneStore (updates.foldl (mergeStep actor) ms).stores k = true := by
  induction updates generalizing ms with
  | nil => simpa using h
  | cons u rest ih => exact ih _ (mergeStep_exactlyOne actor ms u k h)

/-- The stores returned by the success path are the stores of the fold. -/
theorem mergeRun_fst (st : Stores) (updates : List RecordUpdate) (actor : String) :
    (mergeRun st updates actor).1
      = (updates.foldl (mergeStep actor) ⟨st, [], []⟩).stores := rfl

/-- The outcomes returned by the success path are the outcomes of the fold. -/
theorem mergeRun_outcomes (st : Stores) (updates : List RecordUpdate) (actor : String) :
    (mergeRun st updates actor).2.1.outcomes
      = (updates.foldl (mergeStep actor) ⟨st, [], []⟩).outcomes := rfl

/-! ### C1 — exactly one store after merge -/

/-- C1: for every pre-state in which a composite key is present in exactly
one of the quarantine and clean stores (the Ownership rule of spec section 3
rules out keys present in both), every completed merge call leaves that key
in exactly one of the two stores — never both, never neither.  A key absent
from both stores before the call is the only exception the claim allows, and
such a key is never written by merge. -/
theorem C1_merge_exactly_one_store (st : Stores) (updates : List RecordUpdate)
    (actor : String) (k : String) (out : Stores × MergeResult × List AuditEntry)
    (h : inExactlyOneStore st k = true)
    (hok : merge st updates actor = Except.ok out) :
    inExactlyOneStore out.1 k = true := by
  unfold merge at hok
  by_cases hnd : (updates.map (fun u => u.composite_key)).Nodup
  · rw [if_pos hnd] at hok
    have hout : mergeRun st updates actor = out := by
      injection hok
    rw [← hout, mergeRun_fst]
    exact foldl_exactlyOne actor updates ⟨st, [], []⟩ k h
  · rw [if_neg hnd] at hok
    exact absurd hok (by simp)

/-- Sample pre-state: the scenario record sits in quarantine and the clean
store is empty. -/
def sampleStores : Stores :=
  { quarantine := fun k => if k = "42|2024-01-01|QUARANTINED" then some samplePaymentBad else none
  , clean := fun _ => none }

/-- Scenario update repairing the payment date of the quarantined record. -/
def sampleUpdate : RecordUpdate :=
  { composite_key := "42|2024-01-01|QUARANTINED", next_payment_date := some ("2024-06-01") }

/-- Stores with both tables empty. -/
def emptyStores : Stores :=
  { quarantine := fun _ => none, clean := fun _ => none }

/-- Witness for C1: merging the scenario batch leaves the scenario key in
exactly one store. -/
theorem C1_witness :
    inExactlyOneStore (mergeRun sampleStores [sampleUpdate] ("steward")).1
        ("42|2024-01-01|QUARANTINED") = true :=
  C1_merge_exactly_one_store sampleStores [sampleUpdate] ("steward")
    ("42|2024-01-01|QUARANTINED") (mergeRun sampleStores [sampleUpdate] ("steward"))
    (by decide)
    (by unfold merge; rw [if_pos (by decide)])

/-! ### C6 — duplicate keys abort before any mutation -/

/-- C6: a batch containing two updates with the same composite key is
rejected with the batch-level DUPLICATE_KEY error by both the Batch
Processor and the Merge Coordinator: no BatchResult and no MergeResult is
produced, no store value is returned, and the duplicate test is the first
thing both definitions evaluate, before any validation or store access. -/
theorem C6_duplicate_keys_reject (st : Stores)
    (base_records : String → Option QuarantineRecord)
    (updates : List RecordUpdate) (actor : String)
    (h : ¬ (updates.map (fun u => u.composite_key)).Nodup) :
    merge st updates actor = Except.error BatchError.DUPLICATE_KEY
      ∧ process base_records updates = Except.error BatchError.DUPLICATE_KEY := by
  constructor
  · unfold merge
    rw [if_neg h]
  · unfold process
    rw [if_neg h]

/-- First update of the duplicate-key witness batch. -/
def dupA : RecordUpdate :=
  { composite_key := "7|2024-02-01|QUARANTINED", balance := some 10 }

/-- Second update of the duplicate-key witness batch, sharing the key. -/
def dupB : RecordUpdate :=
  { composite_key := "7|2024-02-01|QUARANTINED", balance := some 20 }

/-- Witness for C6: a concrete two-update batch sharing one composite key is
rejected by merge and by process. -/
theorem C6_witness :
    merge emptyStores [dupA, dupB] ("steward") = Except.error BatchError.DUPLICATE_KEY
      ∧ process (fun _ => none) [dupA, dupB] = Except.error BatchError.DUPLICATE_KEY :=
  C6_duplicate_keys_reject emptyStores (fun _ => none) [dupA, dupB] ("steward") (by decide)

/-! ### C7 — an already-merged key is a per-record NotFound, not silent
success -/

/-- C7: in a duplicate-free batch, an update whose composite key is absent
from the quarantine store (as after a previous successful merge of that key)
makes the merge call succeed with a per-record not_found outcome for that
key, while every record of the batch is still processed: the outcome list
has one row per update. -/
theorem C7_already_merged_key_not_found (st : Stores) (updates : List RecordUpdate)
    (actor : String) (u : RecordUpdate)
    (hnd : (updates.map (fun v => v.composite_key)).Nodup)
    (hmem : u ∈ updates)
    (habs : st.quarantine u.composite_key = none) :
    merge st updates actor = Except.ok (mergeRun st updates actor)
      ∧ (mergeRun st updates actor).2.1.outcomes.length = updates.length
      ∧ (⟨u.composite_key, OutcomeKind.not_found⟩ : RecordOutcome)
          ∈ (mergeRun st updates actor).2.1.outcomes := by
  refine ⟨by unfold merge; rw [if_pos hnd], ?_, ?_⟩
  · rw [mergeRun_outcomes, foldl_outcomes_length]
    simp
  · obtain ⟨l1, l2, rfl⟩ := List.append_of_mem hmem
    have h1 : (l1.foldl (mergeStep actor) ⟨st, [], []⟩).stores.quarantine u.composite_key
        = none :=
      foldl_quarantine_none actor l1 ⟨st, [], []⟩ u.composite_key habs
    have h2 : (⟨u.composite_key, OutcomeKind.not_found⟩ : RecordOutcome)
        ∈ (mergeStep actor (l1.foldl (mergeStep actor) ⟨st, [], []⟩) u).outcomes := by
      rw [mergeStep_not_found actor _ u h1]
      simp
    have h3 := foldl_outcomes_mono actor l2 _ _ h2
    rw [mergeRun_outcomes]
    simpa [List.foldl_append, List.foldl_cons] using h3

/-- Witness for C7: re-submitting the scenario update against empty stores
yields a not_found outcome and one outcome row for the one-update batch. -/
theorem C7_witness :
    merge emptyStores [sampleUpdate] ("steward")
        = Except.ok (mergeRun emptyStores [sampleUpdate] ("steward"))
      ∧ (mergeRun emptyStores [sampleUpdate] ("steward")).2.1.outcomes.length
          = [sampleUpdate].length
      ∧ (⟨sampleUpdate.composite_key, OutcomeKind.not_found⟩ : RecordOutcome)
          ∈ (mergeRun emptyStores [sampleUpdate] ("steward")).2.1.outcomes :=
  C7_already_merged_key_not_found emptyStores [sampleUpdate] ("steward") sampleUpdate
    (by decide) (by simp) rfl

end DQ
